import Mathlib

/-!
Shallow embedding of the TCP server in src/Server.h and src/Server.cpp.

The server keeps a `std::queue<std::pair<int, std::string>> messageQueue`
(Server.h:39) bridging per-connection handler threads (producers,
Server.cpp:194-214) to a single consumer thread (Server.cpp:130-144), a
`std::map<int, pthread_t> clientsMap` registry (Server.h:38) mutated by the
accept loop (Server.cpp:154-191), and a restart path in `startServer`
(Server.cpp:86-127).  Sockets, threads and byte buffers are modelled with
`Int`, `Nat` and `List Nat`; a message is the pair pushed at Server.cpp:203.
-/

namespace TCPServer

/-- A queued message: `(clientSocket, payload bytes)`, the
`std::pair<int, std::string>` of Server.h:39. -/
abbrev Msg := Int × List Nat

/-- `messageQueue.push` (Server.cpp:203): `std::queue` appends at the back. -/
def pushQ (q : List Msg) (m : Msg) : List Msg := q ++ [m]

/-- `messageQueue.front()` (Server.cpp:139): the oldest element. -/
def frontQ (q : List Msg) : Option Msg := q.head?

/-- `messageQueue.pop()` (Server.cpp:140): removes the oldest element. -/
def popQ (q : List Msg) : List Msg := q.tail

/-- An operation on the shared queue: a producer push (Server.cpp:203) or the
consumer's front-then-pop (Server.cpp:139-140).  The consumer only dequeues
after its non-empty wait (Server.cpp:134), so a dequeue on an empty queue is
modelled as a no-op re-check. -/
inductive QueueOp where
  | enq (m : Msg)
  | deq
deriving DecidableEq

/-- One queue operation acting on (current queue, messages processed so far by
the single consumer, in processing order). -/
def qStep : List Msg × List Msg → QueueOp → List Msg × List Msg
  | (q, out), QueueOp.enq m => (pushQ q m, out)
  | (q, out), QueueOp.deq =>
      match frontQ q with
      | some m => (popQ q, out ++ [m])
      | none => (q, out)

/-- Run a whole interleaving of producer pushes and consumer pops starting
from the empty queue and no processed output. -/
def runQueue (ops : List QueueOp) : List Msg × List Msg :=
  ops.foldl qStep ([], [])

/-- The messages enqueued by an operation sequence, in enqueue order. -/
def enqList (ops : List QueueOp) : List Msg :=
  ops.filterMap (fun op => match op with | QueueOp.enq m => some m | QueueOp.deq => none)

/-- The kinds of access the source makes to `messageQueue`. -/
inductive QueueAccess where
  | emptyCheck
  | frontRead
  | popMutate
  | pushMutate
deriving DecidableEq

/-- One textual access to `messageQueue` in src/Server.cpp: its line, what it
does, and whether `mutex` is held there (i.e. whether the access sits between
a `pthread_mutex_lock(&mutex)` and the matching unlock). -/
structure QueueAccessEvent where
  line : Nat
  access : QueueAccess
  underLock : Bool
deriving DecidableEq

/-- Every access to `messageQueue` in src/Server.cpp:
`messageQueue.empty()` in the wait loop at line 134 (before the lock at 138),
`messageQueue.front()` at 139 and `messageQueue.pop()` at 140 (between the
lock at 138 and unlock at 141), and `messageQueue.push(...)` at 203 (between
the lock at 202 and unlock at 204). -/
def serverQueueAccesses : List QueueAccessEvent :=
  [⟨134, QueueAccess.emptyCheck, false⟩,
   ⟨139, QueueAccess.frontRead, true⟩,
   ⟨140, QueueAccess.popMutate, true⟩,
   ⟨203, QueueAccess.pushMutate, true⟩]

/-- Whole-server state for the lifecycle claims: the stored port
(Server.h:35), the port of the currently bound socket (none before a
successful bind), the registry `clientsMap` (Server.h:38) and the queue. -/
structure ServerState where
  serverPort : Nat
  boundPort : Option Nat
  clientsMap : List (Int × Nat)
  messageQueue : List Msg
deriving DecidableEq

/-- `Server::createAndBindSocket` (Server.cpp:61-83): closes any old socket,
creates a new one and binds it to the stored `serverPort` (Server.cpp:75).
Registry and queue are untouched. -/
def createAndBindSocket (s : ServerState) : ServerState :=
  ⟨s.serverPort, some s.serverPort, s.clientsMap, s.messageQueue⟩

/-- The restart branch of `Server::startServer` (Server.cpp:115-120): on a
Y answer it runs `clientsMap.clear()` then `createAndBindSocket()`.  Nothing
else is reset. -/
def restartServer (s : ServerState) : ServerState :=
  createAndBindSocket ⟨s.serverPort, s.boundPort, [], s.messageQueue⟩

/-- The consumer's report line (Server.cpp:142):
`std::cout << "Message from Client " << clientMessagePair.first << " : "
<< clientMessagePair.second;`. -/
def consumerOutput (id : Int) (payload : String) : String :=
  "Message from Client " ++ toString id ++ " : " ++ payload

/-- The amended observable-output format, from the spec sentence
"each drained message is reported as `Message from Client <connectionId>:
<payload>`" corrected to carry the space the code prints on each side of the
colon: `Message from Client <connectionId> : <payload>`. -/
def specMessageLineAmended (id : Int) (payload : String) : String :=
  "Message from Client " ++ toString id ++ " : " ++ payload

/-- C-string conversion: `std::string(const char*)` applied to `buffer` at
Server.cpp:203 keeps the bytes strictly before the first zero byte. -/
def cString (buf : List Nat) : List Nat := buf.takeWhile (fun b => b ≠ 0)

/-- `recv(clientSocket, buffer, sizeof(buffer) - 1, 0)` writing an `n`-byte
chunk into the front of the 256-byte `buffer` (Server.cpp:200); bytes past
the chunk keep their previous contents. -/
def writeChunk (buf : List Nat) (c : List Nat) : List Nat := c ++ buf.drop c.length

/-- `memset(buffer, 0, sizeof(buffer))` (Server.cpp:205): the zeroed buffer. -/
def zeroBuf : List Nat := List.replicate 256 0

/-- The payloads `Server::handleClient` pushes (Server.cpp:200-206), one per
successful non-empty read: each chunk is written into the buffer, the buffer
is pushed through the C-string conversion, then the buffer is zeroed for the
next read.  `buf` is the buffer's contents before the first read (the local
`char buffer[256]` at Server.cpp:196 is not initialised). -/
def clientPayloads : List Nat → List (List Nat) → List (List Nat)
  | _, [] => []
  | buf, c :: cs => cString (writeChunk buf c) :: clientPayloads zeroBuf cs

/-- Outcome of one whole `Server::handleClient` run (Server.cpp:194-214) on a
connection whose reads return `chunks` and then a zero-or-error length. -/
structure ClientRunResult where
  pushedMsgs : List Msg
  registryAfter : List (Int × Nat)
  socketClosed : Bool
deriving DecidableEq

/-- `Server::handleClient` (Server.cpp:194-214): pushes one message per
successful read, then on a zero-or-error read leaves the loop, logs the
disconnect and runs `close(clientSocket)` (Server.cpp:213).  The function
never mentions `clientsMap`, so the registry it runs against is returned
unchanged. -/
def handleClient (sock : Int) (initBuf : List Nat) (chunks : List (List Nat))
    (reg : List (Int × Nat)) : ClientRunResult :=
  ⟨(clientPayloads initBuf chunks).map (fun p => (sock, p)), reg, true⟩

/-- `MAX_CLIENTS` (Server.h:25). -/
def MAX_CLIENTS : Nat := 10

/-- `std::map<int, pthread_t>` ordered insert-or-assign, the effect of
`clientsMap[clientSocket] = thread` (Server.cpp:188). -/
def mapInsert (m : List (Int × Nat)) (k : Int) (v : Nat) : List (Int × Nat) :=
  match m with
  | [] => [(k, v)]
  | (k0, v0) :: rest =>
      if k = k0 then (k, v) :: rest
      else if k < k0 then (k, v) :: (k0, v0) :: rest
      else (k0, v0) :: mapInsert rest k v

/-- `std::map` lookup. -/
def mapLookup (m : List (Int × Nat)) (k : Int) : Option Nat :=
  match m with
  | [] => none
  | (k0, v0) :: rest => if k = k0 then some v0 else mapLookup rest k

/-- Outcome of one iteration of the accept loop (Server.cpp:167-190). -/
structure AcceptIterResult where
  clientsMap : List (Int × Nat)
  spawnedFor : Option Int
  closedClientSocket : Bool
  threw : Bool
deriving DecidableEq

/-- One iteration of the accept loop in `Server::startListening`
(Server.cpp:167-190).  `acceptResult` is what `accept` returned (-1 on
failure, which is only logged); the iteration then unconditionally calls
`pthread_create` for `acceptResult`.  If the spawn succeeds the socket is
registered via `clientsMap[clientSocket] = thread` (Server.cpp:188); if it
fails a `TCPServerError` is thrown at Server.cpp:183, and the
`close(clientSocket)` written at Server.cpp:184 sits after the throw, so it
never executes.  No path compares the registry size with `MAX_CLIENTS` and
no path closes the accepted socket. -/
def acceptIteration (clients : List (Int × Nat)) (acceptResult : Int)
    (spawnOk : Bool) (tid : Nat) : AcceptIterResult :=
  if spawnOk then
    ⟨mapInsert clients acceptResult tid, some acceptResult, false, false⟩
  else
    ⟨clients, none, false, true⟩

/-- Registry after eleven successive successful accepts (sockets 4..14, all
spawns succeeding) starting from an empty registry. -/
def elevenAccepts : List (Int × Nat) :=
  (List.range 11).foldl
    (fun m i => (acceptIteration m (Int.ofNat (i + 4)) true i).clientsMap) []

/-- A registry already holding `MAX_CLIENTS` live connections. -/
def tenClients : List (Int × Nat) :=
  (List.range 10).map (fun i => (Int.ofNat (i + 4), i))

/-- State of the consumer thread `Server::handleMessageQueue`
(Server.cpp:130-144): the shared queue and the lines printed so far. -/
structure ConsumerState where
  queue : List Msg
  printed : List String
deriving DecidableEq

/-- Exit condition of the consumer loop.  The loop at Server.cpp:132-143 is
`while(true)` and its body contains no `break` and no `return`, so no state
makes it exit. -/
def consumerExitsLoop (_ : ConsumerState) : Bool := false

/-- Payload bytes rendered as the `std::string` the consumer prints. -/
def payloadString (p : List Nat) : String :=
  String.mk (p.map Char.ofNat)

/-- One pass through the consumer loop body (Server.cpp:132-143): while the
queue is empty it sleeps and re-checks (state unchanged); otherwise it takes
the front message, pops it and prints the report line of Server.cpp:142. -/
def consumerStep (s : ConsumerState) : ConsumerState :=
  match s.queue with
  | [] => s
  | (id, p) :: rest => ⟨rest, s.printed ++ [consumerOutput id (payloadString p)]⟩

/-- The consumer after `n` passes through its loop body. -/
def consumerRun : Nat → ConsumerState → ConsumerState
  | 0, s => s
  | n + 1, s => consumerRun n (consumerStep s)

/-- The consumer thread terminates exactly when its loop exits after some
number of passes. -/
def consumerTerminates (s : ConsumerState) : Prop :=
  ∃ n, consumerExitsLoop (consumerRun n s) = true

/-- `pthread_join(messageQueueThread, NULL)` in the destructor
(Server.cpp:52) returns precisely when the joined thread's start routine,
`handleMessageQueue`, terminates. -/
def destructorJoinReturns (s : ConsumerState) : Prop :=
  consumerTerminates s

/-- Invariant of the shared queue: at every point of every interleaving, the
messages the consumer has processed followed by the messages still queued are
exactly the messages enqueued so far, in enqueue order. -/
theorem runQueue_invariant (ops : List QueueOp) :
    ∀ q out, ((ops.foldl qStep (q, out)).2 ++ (ops.foldl qStep (q, out)).1 : List Msg)
      = (out ++ q) ++ enqList ops := by
  induction ops with
  | nil => intro q out; simp [enqList]
  | cons op rest ih =>
    intro q out
    cases op with
    | enq m =>
      simpa [qStep, pushQ, enqList, List.filterMap_cons] using ih (q ++ [m]) out
    | deq =>
      cases q with
      | nil =>
        simpa [qStep, frontQ, enqList, List.filterMap_cons] using ih [] out
      | cons m q0 =>
        simpa [qStep, frontQ, popQ, enqList, List.filterMap_cons] using ih q0 (out ++ [m])

/-- C1: the message queue is strictly FIFO.  For every interleaving of
enqueue operations with the single consumer's dequeues, the sequence of
messages the consumer has processed, followed by the messages still pending
in the queue, equals the full sequence of enqueued messages in enqueue order;
in particular the consumer processes messages exactly in enqueue order. -/
theorem fifo_queue_processing_order (ops : List QueueOp) :
    (runQueue ops).2 ++ (runQueue ops).1 = enqList ops := by
  simpa using runQueue_invariant ops [] []

/-- C2 counterexample: it is not true that every access to `messageQueue`
in src/Server.cpp holds the mutex; the consumer's emptiness check at
Server.cpp:134 reads the queue with the lock not held. -/
theorem queue_access_outside_lock :
    (⟨134, QueueAccess.emptyCheck, false⟩ : QueueAccessEvent) ∈ serverQueueAccesses ∧
    ¬ (∀ e ∈ serverQueueAccesses, e.underLock = true) := by
  decide

/-- C2 amended: every mutation of `messageQueue` (the push at Server.cpp:203
and the pop at Server.cpp:140) and the front read at Server.cpp:139 happen
while the mutex is held; the only access outside the lock is the consumer's
emptiness check at Server.cpp:134. -/
theorem queue_lock_discipline :
    (∀ e ∈ serverQueueAccesses, e.access ≠ QueueAccess.emptyCheck → e.underLock = true) ∧
    (∀ e ∈ serverQueueAccesses, e.underLock = false → e.access = QueueAccess.emptyCheck) := by
  decide

/-- C3 counterexample: restart does not leave an empty message queue.  From
a state with one queued message, `restartServer` keeps that message queued,
so the post-restart state does not have both an empty registry and an empty
queue. -/
theorem restart_keeps_queue :
    (restartServer ⟨9000, some 9000, [(4, 0)], [(4, [104])]⟩).messageQueue = [(4, [104])] ∧
    ¬ (restartServer ⟨9000, some 9000, [(4, 0)], [(4, [104])]⟩).messageQueue = [] := by
  decide

/-- C3 amended: after the restart branch of `startServer` the server is
rebound to the same stored port and the connection registry is empty, but
the message queue is exactly what it was before the restart (it is never
cleared). -/
theorem restart_state (s : ServerState) :
    (restartServer s).clientsMap = [] ∧
    (restartServer s).boundPort = some s.serverPort ∧
    (restartServer s).serverPort = s.serverPort ∧
    (restartServer s).messageQueue = s.messageQueue :=
  ⟨rfl, rfl, rfl, rfl⟩

/-- C4 counterexample: the consumer's output line for message id 5, payload
"hello" is not the spec's `Message from Client 5: hello`; the code prints a
space on each side of the colon. -/
theorem output_line_has_space_before_colon :
    consumerOutput 5 "hello" = "Message from Client 5 : hello" ∧
    consumerOutput 5 "hello" ≠ "Message from Client 5: hello" := by
  decide

/-- C4 amended: for every dequeued message the consumer's output line is
exactly `Message from Client <connectionId> : <payload>`, with a single
space on each side of the colon. -/
theorem output_line_format (id : Int) (payload : String) :
    consumerOutput id payload = specMessageLineAmended id payload := rfl

/-- C10: the consumer loop `handleMessageQueue` has no exit condition: after
any number of passes from any state it has not exited, the thread never
terminates, and therefore the destructor's `pthread_join` on the
message-queue thread never returns. -/
theorem consumer_never_exits (s : ConsumerState) :
    (∀ n, consumerExitsLoop (consumerRun n s) = false) ∧
    ¬ destructorJoinReturns s := by
  constructor
  · intro n; rfl
  · rintro ⟨n, h⟩
    simp [consumerExitsLoop] at h

/-- C10 witness: at a concrete consumer state the loop has not exited after
any number of passes and the destructor's join does not return. -/
theorem consumer_never_exits_witness :
    (∀ n, consumerExitsLoop (consumerRun n ⟨[], []⟩) = false) ∧
    ¬ destructorJoinReturns ⟨[], []⟩ :=
  consumer_never_exits ⟨[], []⟩

/-- Lookup after an ordered insert-or-assign finds the inserted value. -/
theorem mapLookup_mapInsert (m : List (Int × Nat)) (k : Int) (v : Nat) :
    mapLookup (mapInsert m k v) k = some v := by
  induction m with
  | nil => simp [mapInsert, mapLookup]
  | cons kv rest ih =>
    obtain ⟨k0, v0⟩ := kv
    by_cases h1 : k = k0
    · simp [mapInsert, mapLookup, h1]
    · by_cases h2 : k < k0
      · simp [mapInsert, mapLookup, h1, h2]
      · simp [mapInsert, mapLookup, h1, h2, ih]

/-- C5 counterexample: a handler whose connection (socket 4, registered with
thread handle 7) reads one chunk and then sees the peer close does close its
socket, but its registry entry is still present when the task ends: the
entry is not removed or flagged. -/
theorem handler_leaves_registry_entry :
    (handleClient 4 zeroBuf [[104]] [(4, 7)]).socketClosed = true ∧
    (handleClient 4 zeroBuf [[104]] [(4, 7)]).registryAfter = [(4, 7)] ∧
    ¬ mapLookup (handleClient 4 zeroBuf [[104]] [(4, 7)]).registryAfter 4 = none := by
  decide

/-- C5 amended: when a read returns zero or an error the handler's loop
terminates and it closes its connection socket, but it does not remove or
flag its entry in the connection registry: the registry it ran against is
unchanged when the task ends (entries disappear only when `startServer`'s
restart branch clears the map or the server is destroyed). -/
theorem handler_close_and_registry (sock : Int) (initBuf : List Nat)
    (chunks : List (List Nat)) (reg : List (Int × Nat)) :
    (handleClient sock initBuf chunks reg).socketClosed = true ∧
    (handleClient sock initBuf chunks reg).registryAfter = reg :=
  ⟨rfl, rfl⟩

/-- C6 counterexample: starting from an empty registry, eleven successful
accepts (each spawn succeeding) leave eleven live registered connections,
strictly more than `MAX_CLIENTS = 10`: the connection count does exceed the
configured maximum, and no attempt was refused. -/
theorem eleven_clients_exceed_max :
    elevenAccepts.length = 11 ∧ MAX_CLIENTS < elevenAccepts.length := by
  decide

/-- C6 amended: `MAX_CLIENTS` is used only as the backlog argument of
`listen` (Server.cpp:156); the accept loop never compares the live
connection count with it, so even when at least `MAX_CLIENTS` connections
are already registered, the next accepted connection gets a handler spawned,
is registered in the map, and its socket is not closed: nothing is refused
and the live count can exceed the maximum. -/
theorem no_connection_cap (clients : List (Int × Nat)) (s : Int) (tid : Nat)
    (_at_capacity : MAX_CLIENTS ≤ clients.length) :
    (acceptIteration clients s true tid).spawnedFor = some s ∧
    (acceptIteration clients s true tid).closedClientSocket = false ∧
    mapLookup (acceptIteration clients s true tid).clientsMap s = some tid := by
  refine ⟨rfl, rfl, ?_⟩
  simp [acceptIteration, mapLookup_mapInsert]

/-- C6 amended, witness: with ten connections already live, connection 99 is
still spawned, registered and left open. -/
theorem no_connection_cap_witness :
    MAX_CLIENTS ≤ tenClients.length ∧
    ((acceptIteration tenClients 99 true 55).spawnedFor = some 99 ∧
     (acceptIteration tenClients 99 true 55).closedClientSocket = false ∧
     mapLookup (acceptIteration tenClients 99 true 55).clientsMap 99 = some 55) :=
  ⟨by decide, no_connection_cap tenClients 99 55 (by decide)⟩

/-- C8: on the handler-spawn-failure path after an accept, the code throws
`TCPServerError` at Server.cpp:183 before the `close(clientSocket)` written
at Server.cpp:184, so the just-accepted socket (here 4) is never closed: the
error propagates with the socket leaked. -/
theorem spawn_failure_leaks_socket :
    (acceptIteration [] 4 false 0).threw = true ∧
    (acceptIteration [] 4 false 0).closedClientSocket = false := by
  decide

/-- C9: when `accept` fails and returns -1, the accept loop still calls
`pthread_create` for the invalid socket value -1, and on successful thread
creation inserts an entry keyed -1 into `clientsMap`, instead of skipping to
the next accept. -/
theorem accept_failure_still_spawns (clients : List (Int × Nat)) (tid : Nat) :
    (acceptIteration clients (-1) true tid).spawnedFor = some (-1) ∧
    mapLookup (acceptIteration clients (-1) true tid).clientsMap (-1) = some tid := by
  refine ⟨rfl, ?_⟩
  simp [acceptIteration, mapLookup_mapInsert]

/-- Taking the non-zero prefix of a list followed by zeros is taking the
non-zero prefix of the list itself. -/
theorem takeWhile_append_zeros (a z : List Nat) (hz : ∀ x ∈ z, x = 0) :
    (a ++ z).takeWhile (fun b => b ≠ 0) = a.takeWhile (fun b => b ≠ 0) := by
  induction a with
  | nil =>
    cases z with
    | nil => rfl
    | cons x zs =>
      have hx : x = 0 := hz x (by simp)
      simp [List.takeWhile, hx]
  | cons x xs ih =>
    simp only [List.cons_append, List.takeWhile_cons, ih]

/-- A chunk written into the zeroed buffer and read back as a C string is
the chunk truncated at its first zero byte. -/
theorem cString_writeChunk_zeroBuf (c : List Nat) :
    cString (writeChunk zeroBuf c) = cString c := by
  show (c ++ zeroBuf.drop c.length).takeWhile (fun b => b ≠ 0)
      = c.takeWhile (fun b => b ≠ 0)
  apply takeWhile_append_zeros
  intro x hx
  exact List.eq_of_mem_replicate (List.mem_of_mem_drop hx)

/-- One payload is pushed per successful read. -/
theorem clientPayloads_length (buf : List Nat) (chunks : List (List Nat)) :
    (clientPayloads buf chunks).length = chunks.length := by
  induction chunks generalizing buf with
  | nil => rfl
  | cons c cs ih => simp [clientPayloads, ih]

/-- From the zeroed buffer onwards, the i-th pushed payload is the i-th
chunk truncated at its first zero byte. -/
theorem clientPayloads_zeroBuf_get (chunks : List (List Nat)) (i : Nat) :
    (clientPayloads zeroBuf chunks)[i]? = (chunks[i]?).map cString := by
  induction chunks generalizing i with
  | nil => simp [clientPayloads]
  | cons c cs ih =>
    cases i with
    | zero => simp [clientPayloads, cString_writeChunk_zeroBuf]
    | succ j => simpa [clientPayloads] using ih j

/-- C7 amended: each successful non-empty read of n bytes (1 ≤ n ≤ 255)
enqueues exactly one Message, but its payload is the read bytes truncated at
the first zero byte (the `std::string` built from `buffer` at Server.cpp:203
stops at the first NUL), hence verbatim only when the bytes contain no zero
byte; and on the first read the not-yet-zeroed buffer contributes whatever
bytes follow the chunk, so only later reads are independent of the buffer's
initial contents. -/
theorem enqueue_per_read_truncates (initBuf : List Nat) (chunks : List (List Nat))
    (i : Nat) (hc : ∀ c ∈ chunks, 1 ≤ c.length ∧ c.length ≤ 255) (hi : 1 ≤ i) :
    (clientPayloads initBuf chunks).length = chunks.length ∧
    (clientPayloads initBuf chunks)[i]? = (chunks[i]?).map cString ∧
    (clientPayloads initBuf chunks)[0]? =
      (chunks[0]?).map (fun c => cString (writeChunk initBuf c)) := by
  refine ⟨clientPayloads_length initBuf chunks, ?_, ?_⟩
  · cases chunks with
    | nil => simp [clientPayloads]
    | cons c cs =>
      obtain ⟨j, rfl⟩ := Nat.exists_eq_add_of_le hi
      rw [Nat.add_comm 1 j]
      simpa [clientPayloads] using clientPayloads_zeroBuf_get cs j
  · cases chunks with
    | nil => simp [clientPayloads]
    | cons c cs => simp [clientPayloads]

/-- C7 amended, witness: a connection reading the chunks [104] then [7]. -/
theorem enqueue_per_read_truncates_witness :
    ((∀ c ∈ ([[104], [7]] : List (List Nat)), 1 ≤ c.length ∧ c.length ≤ 255) ∧ 1 ≤ 1) ∧
    ((clientPayloads zeroBuf [[104], [7]]).length = ([[104], [7]] : List (List Nat)).length ∧
     (clientPayloads zeroBuf [[104], [7]])[1]? =
       (([[104], [7]] : List (List Nat))[1]?).map cString ∧
     (clientPayloads zeroBuf [[104], [7]])[0]? =
       (([[104], [7]] : List (List Nat))[0]?).map (fun c => cString (writeChunk zeroBuf c))) :=
  ⟨⟨by decide, by decide⟩,
   enqueue_per_read_truncates zeroBuf [[104], [7]] 1 (by decide) (by decide)⟩

/-- C7 counterexample: a successful read of the three bytes 104, 0, 105
(n = 3, within 1..255) enqueues exactly one Message, but its payload is
[104], not the three raw bytes: the bytes after the zero byte are lost. -/
theorem zero_byte_payload_truncated :
    clientPayloads zeroBuf [[104, 0, 105]] = [[104]] ∧
    clientPayloads zeroBuf [[104, 0, 105]] ≠ [[104, 0, 105]] := by
  decide

end TCPServer
